import Mathlib

/-!
Verification of the schema-aware SQL chatbot core (src/chatbot.py).

The development shallowly embeds the two classes that the specification
describes: `DatabaseManager` (connection-string construction, connection
testing, catalog discovery, column listing) and `SQLAgent` (agent
configuration and the `query_database` response resolver).

Modelling conventions: external effects (the pyodbc driver enumeration,
SQLAlchemy statement execution, the LangChain agent invocation) are passed
in as explicit `Except String _` outcomes or as function parameters, so a
Python `try/except` block becomes a `match` on the outcome; Python strings
are Lean strings; Python substring containment (`sub in s`) is `strHas`;
Python `str.lower()` is `lowerStr` (ASCII model). The SQL text the program
sends to the database is kept as literal strings, and where a claim
depends on what a query returns, the query result is modelled from the
SELECT clause of that literal (noted at the definition).
-/

namespace DBChat

/-- ASCII model of Python `str.lower()`: lower-case every character. -/
def lowerStr (s : String) : String := ⟨s.data.map Char.toLower⟩

/-- Boolean test: the first list occurs at the head of the second. -/
def hasPre (p l : List Char) : Bool :=
  match p, l with
  | [], _ => true
  | _ :: _, [] => false
  | a :: ps, b :: ls => a == b && hasPre ps ls

/-- Boolean test: the first list occurs contiguously inside the second. -/
def hasSub (p : List Char) : List Char → Bool
  | [] => hasPre p []
  | b :: ls => hasPre p (b :: ls) || hasSub p ls

/-- Python `sub in s`: substring containment, executable. -/
def strHas (s sub : String) : Bool := hasSub sub.data s.data

/-- Propositional substring containment, used to state occurrence facts. -/
def SubStr (sub s : String) : Prop :=
  ∃ l r : List Char, s.data = l ++ sub.data ++ r

/-- The first string is a leading portion of the second. -/
def DataPre (s t : String) : Prop := ∃ r : List Char, s.data ++ r = t.data

/-! ## DatabaseManager: drivers and connection string (lines 223-267) -/

/-- Embeds `DatabaseManager.get_available_drivers`: the outcome of
`pyodbc.drivers()` is the parameter; on success the names containing
"SQL Server" are kept, on an exception the empty list is returned. -/
def get_available_drivers (pyodbcDrivers : Except String (List String)) :
    List String :=
  match pyodbcDrivers with
  | .ok drivers => drivers.filter (fun d => strHas d "SQL Server")
  | .error _ => []

/-- The fixed driver preference list from `create_connection_string`. -/
def preferred_drivers : List String :=
  ["ODBC Driver 18 for SQL Server",
   "ODBC Driver 17 for SQL Server",
   "ODBC Driver 13 for SQL Server",
   "SQL Server Native Client 11.0",
   "SQL Server"]

/-- The connection URI template of `create_connection_string` (lines
256-266); `qp` is the `urllib.parse.quote_plus` percent-encoder, passed as
a parameter since it is Python standard-library code. -/
def connection_string_of (qp : String → String)
    (server database username password driver : String)
    (trust_cert : Bool) (timeout : Nat) : String :=
  "mssql+pyodbc://" ++ qp username ++ ":" ++ qp password ++
  "@" ++ server ++ ":1433/" ++ database ++ "?" ++
  "driver=" ++ qp driver ++ "&" ++
  "Encrypt=yes&" ++
  "TrustServerCertificate=" ++ (if trust_cert then "yes" else "no") ++ "&" ++
  "Connection+Timeout=" ++ toString timeout ++ "&" ++
  "Login_Timeout=" ++ toString timeout ++ "&" ++
  "ConnectRetryCount=3&" ++
  "ConnectRetryInterval=10"

/-- Embeds `DatabaseManager.create_connection_string`. When no driver is
supplied, the available-driver list (as produced by
`get_available_drivers`) is consulted: an empty list raises, otherwise the
first preferred driver present is chosen, falling back to the head of the
available list. The raised exception is the `.error` case. -/
def create_connection_string (qp : String → String)
    (server database username password : String)
    (driver? : Option String) (available_drivers : List String)
    (trust_cert : Bool) (timeout : Nat) : Except String (String × String) :=
  match driver? with
  | some d =>
      .ok (connection_string_of qp server database username password d
             trust_cert timeout, d)
  | none =>
    match available_drivers with
    | [] => .error "No SQL Server ODBC drivers found."
    | a :: rest =>
      let d := (preferred_drivers.find? (fun p => (a :: rest).contains p)).getD a
      .ok (connection_string_of qp server database username password d
             trust_cert timeout, d)

/-! ## DatabaseManager.test_connection (lines 269-317) -/

/-- The timeout troubleshooting block (triple-quoted literal). -/
def timeout_troubleshooting : String :=
  "\n                \n**Troubleshooting Timeout Issues:**\n1. Check if your server name is correct (should end with .database.windows.net)\n2. Verify firewall settings allow your IP address\n3. Ensure you\x27re using port 1433\n4. Check if the database is online and accessible\n                "

/-- The login troubleshooting block (triple-quoted literal). -/
def login_troubleshooting : String :=
  "\n                \n**Troubleshooting Login Issues:**\n1. Verify username and password are correct\n2. Check if the user has permission to access the database\n3. Ensure the database name is correct\n                "

/-- The SSL/certificate troubleshooting block (triple-quoted literal). -/
def ssl_troubleshooting : String :=
  "\n                \n**Troubleshooting SSL/Certificate Issues:**\n1. Try connecting with TrustServerCertificate=yes\n2. Update your ODBC driver to the latest version\n                "

/-- Embeds `DatabaseManager.test_connection`: the engine creation plus
`SELECT 1` probe is the `attempt` parameter; on failure the error text is
classified by the if/elif chain on lower-cased substring matches. -/
def test_connection (attempt : Except String Unit) : Bool × String :=
  match attempt with
  | .ok _ => (true, "Connection successful!")
  | .error error_msg =>
    let troubleshooting :=
      if strHas (lowerStr error_msg) "timeout" then timeout_troubleshooting
      else if strHas (lowerStr error_msg) "login" then login_troubleshooting
      else if strHas (lowerStr error_msg) "ssl" ||
              strHas (lowerStr error_msg) "certificate" then ssl_troubleshooting
      else ""
    (false, "Connection failed: " ++ error_msg ++ troubleshooting)

/-! ## DatabaseManager.get_all_tables_and_schemas (lines 319-403) -/

/-- One row of the catalog result set, with the columns selected by the
unioned discovery query (lines 326-357). -/
structure TableRow where
  schema_name : String
  table_name : String
  full_table_name : String
  table_type : String
  column_count : Nat
deriving DecidableEq

/-- The deduplication key used by the discovery loop:
`(row_dict[\x27schema_name\x27], row_dict[\x27table_name\x27])`. -/
def tkey (r : TableRow) : String × String := (r.schema_name, r.table_name)

/-- Embeds the dedup loop of lines 364-372: rows are visited in order, a
row is kept exactly when its key has not been seen before. -/
def dedupGo : List TableRow → List (String × String) → List TableRow
  | [], _ => []
  | r :: rs, seen =>
    if tkey r ∈ seen then dedupGo rs seen
    else r :: dedupGo rs (tkey r :: seen)

/-- Row produced by the fallback basic query (lines 381-391) for one
`(TABLE_SCHEMA, TABLE_NAME)` pair of INFORMATION_SCHEMA.TABLES with
TABLE_TYPE = BASE TABLE; modelled from the SELECT clause of that literal
query, which emits `TABLE_SCHEMA + \x27.\x27 + TABLE_NAME`, the constant
string BASE TABLE, and the constant 0. -/
def basicQueryRow (p : String × String) : TableRow :=
  { schema_name := p.1, table_name := p.2,
    full_table_name := p.1 ++ "." ++ p.2,
    table_type := "BASE TABLE", column_count := 0 }

/-- Embeds `DatabaseManager.get_all_tables_and_schemas`. `hasEngine`
models the `if not self.engine` guard; `primaryQuery` is the outcome of
the unioned discovery query; `fallbackQuery` is the outcome of the basic
fallback query, given as the base-table name pairs it returns. -/
def get_all_tables_and_schemas (hasEngine : Bool)
    (primaryQuery : Except String (List TableRow))
    (fallbackQuery : Except String (List (String × String))) : List TableRow :=
  if !hasEngine then []
  else
    match primaryQuery with
    | .ok rows => dedupGo rows []
    | .error _ =>
      match fallbackQuery with
      | .ok base => base.map basicQueryRow
      | .error _ => []

/-! ## DatabaseManager.get_table_columns (lines 431-459) -/

/-- One row of INFORMATION_SCHEMA.COLUMNS as selected by the column query,
together with the ORDINAL_POSITION the ORDER BY clause sorts on and the
TABLE_SCHEMA/TABLE_NAME the WHERE clause filters on. -/
structure InfoColumn where
  table_schema : String
  table_name : String
  column_name : String
  data_type : String
  is_nullable : String
  column_default : Option String
  character_maximum_length : Option Int
  numeric_precision : Option Int
  numeric_scale : Option Int
  ordinal_position : Nat
deriving DecidableEq

/-- Comparison used by the ORDER BY ORDINAL_POSITION clause. -/
def colOrd (a b : InfoColumn) : Prop :=
  a.ordinal_position ≤ b.ordinal_position

instance : DecidableRel colOrd := fun _ _ => Nat.decLe _ _

instance : IsTotal InfoColumn colOrd := ⟨fun _ _ => Nat.le_total _ _⟩

instance : IsTrans InfoColumn colOrd := ⟨fun _ _ _ => Nat.le_trans⟩

/-- Semantics of the column query (lines 437-449): filter the COLUMNS
catalog to the requested table and sort by ordinal position. -/
def columnsQuery (catalog : List InfoColumn)
    (schema_name table_name : String) : List InfoColumn :=
  List.insertionSort colOrd
    (catalog.filter fun c =>
      c.table_schema == schema_name && c.table_name == table_name)

/-- Embeds `DatabaseManager.get_table_columns`: no engine yields `[]`,
a raised database error yields `[]`, a successful execution yields the
fetched rows. -/
def get_table_columns (hasEngine : Bool)
    (execQuery : Except String (List InfoColumn)) : List InfoColumn :=
  if !hasEngine then []
  else
    match execQuery with
    | .ok cols => cols
    | .error _ => []

/-! ## SQLAgent.create_agent configuration (lines 749-761) -/

/-- The agent-executor options passed to `initialize_agent`. -/
structure AgentConfig where
  max_iterations : Nat
  early_stopping_method : String
  handle_parsing_errors : Bool
  return_intermediate_steps : Bool
  verbose : Bool

/-- Embeds the literal configuration built in `SQLAgent.create_agent`. -/
def createAgentConfig : AgentConfig :=
  { max_iterations := 10,
    early_stopping_method := "force",
    handle_parsing_errors := true,
    return_intermediate_steps := true,
    verbose := true }

/-- Modelled from the spec: one THINK step of the reasoning engine either
emits a final answer, proposes a tool action, or produces free text that
fails to parse as an action (spec section 4.3); the engine code itself is
the external LangChain executor, not part of src/. -/
inductive StepOutcome where
  | finalAnswer (answer : String)
  | action (tool : String) (input : String)
  | parseFailure (raw : String)

/-- Modelled from the spec: the bounded ReAct loop of spec section 4.3,
driven by the iteration budget (`fuel`). Each recursion performs one THINK
step; a tool action or a recovered parse failure appends an observation to
the transcript and continues; exhausting the budget force-stops with a
partial answer instead of raising. Returns the answer together with the
number of THINK steps taken. -/
def reactGo (engine : List String → StepOutcome)
    (tools : String → String → String) (handleParse : Bool) :
    Nat → List String → Nat → String × Nat
  | 0, _, thinks => ("Agent stopped due to iteration limit or time limit.", thinks)
  | fuel + 1, transcript, thinks =>
    match engine transcript with
    | .finalAnswer a => (a, thinks + 1)
    | .action tool inp =>
        reactGo engine tools handleParse fuel
          (transcript ++ [tools tool inp]) (thinks + 1)
    | .parseFailure raw =>
        if handleParse then
          reactGo engine tools handleParse fuel
            (transcript ++ ["Invalid or incomplete response. Please follow the expected action format."])
            (thinks + 1)
        else ("Could not parse LLM output: " ++ raw, thinks + 1)

/-- Modelled from the spec: running the reasoning loop under a given agent
configuration, starting from an empty transcript. -/
def reasoningLoop (engine : List String → StepOutcome)
    (tools : String → String → String) (cfg : AgentConfig) : String × Nat :=
  reactGo engine tools cfg.handle_parsing_errors cfg.max_iterations [] 0

/-- An engine whose every THINK step is malformed free text. -/
def engineAlwaysMalformed : List String → StepOutcome :=
  fun _ => .parseFailure "I cannot follow the action format."

/-- A toolset whose every invocation observes a fixed string. -/
def toolsConst : String → String → String := fun _ _ => "observation"

/-! ## SQLAgent.query_database: question enhancement (lines 777-837) -/

/-- The keyword screen of lines 780-781: the lower-cased question must
contain one of table/schema and one of all/list/show/what. -/
def matchesTableListing (question : String) : Bool :=
  (strHas (lowerStr question) "table" || strHas (lowerStr question) "schema") &&
  (strHas (lowerStr question) "all" || strHas (lowerStr question) "list" ||
   strHas (lowerStr question) "show" || strHas (lowerStr question) "what")

/-- The per-table line appended to the catalog context (line 802). -/
def tableLine (t : TableRow) : String :=
  "  - " ++ t.full_table_name ++ " (" ++ t.table_type ++ ")\n"

/-- One schema section of the catalog context (lines 800-802): a header
naming the schema, then a line per table of that schema. -/
def schemaSection (acc : String) (g : String × List TableRow) : String :=
  g.2.foldl (fun a t => a ++ tableLine t)
    (acc ++ "\nSchema \x27" ++ g.1 ++ "\x27:\n")

/-- Embeds the insertion-ordered grouping dict of lines 791-796: the first
group whose key matches the row schema receives the row, otherwise a new
group is appended. -/
def addToGroup : List (String × List TableRow) → TableRow →
    List (String × List TableRow)
  | [], t => [(t.schema_name, [t])]
  | (k, v) :: gs, t =>
    if k = t.schema_name then (k, v ++ [t]) :: gs
    else (k, v) :: addToGroup gs t

/-- Group the catalog rows by schema in insertion order. -/
def groupBySchema (ts : List TableRow) : List (String × List TableRow) :=
  ts.foldl addToGroup []

/-- The assembled catalog context string (lines 788-802). -/
def tableContext (ts : List TableRow) : String :=
  (groupBySchema ts).foldl schemaSection
    "Here are all the tables I found in the database across all schemas:\n"

/-- The instruction tail of the catalog-aware enhanced question (the
f-string of lines 804-823 after the interpolated context). -/
def contextInstructions : String :=
  "\n                    \n                    Please use this information to provide a comprehensive answer. When querying for tables, \n                    make sure to use the appropriate SQL query that will show all tables across all schemas, \n                    such as:\n                    \n                    SELECT \n                        TABLE_SCHEMA as [Schema],\n                        TABLE_NAME as [Table Name], \n                        TABLE_TYPE as [Type],\n                        TABLE_SCHEMA + \x27.\x27 + TABLE_NAME as [Full Name]\n                    FROM INFORMATION_SCHEMA.TABLES \n                    WHERE TABLE_TYPE IN (\x27BASE TABLE\x27, \x27VIEW\x27)\n                    ORDER BY TABLE_SCHEMA, TABLE_NAME\n                    \n                    Make sure your response includes all schemas (dbo, SalesLT, sys, etc.) and their tables.\n                    "

/-- The catalog-aware enhanced question (f-string of lines 804-823). -/
def catalogEnhancement (question : String) (ts : List TableRow) : String :=
  "\n                    " ++ question ++
  "\n                    \n                    CONTEXT: " ++ tableContext ts ++
  contextInstructions

/-- The generic enhanced question used when the enhanced table info is
unavailable (f-string of lines 826-837). -/
def genericEnhancement (question : String) : String :=
  "\n                    " ++ question ++
  "\n                    \n                    IMPORTANT: Please query across ALL schemas in the database, not just the default schema. \n                    Use a comprehensive query like: \n                    SELECT TABLE_SCHEMA, TABLE_NAME, TABLE_TYPE, TABLE_SCHEMA + \x27.\x27 + TABLE_NAME as full_name \n                    FROM INFORMATION_SCHEMA.TABLES \n                    WHERE TABLE_TYPE IN (\x27BASE TABLE\x27, \x27VIEW\x27)\n                    ORDER BY TABLE_SCHEMA, TABLE_NAME\n                    \n                    Make sure to show tables from all schemas (dbo, SalesLT, sys, etc.) if they exist.\n                    "

/-- Embeds the question-enhancement block of lines 777-837. `all_tables`
is `st.session_state.db_manager.all_tables`; the empty list covers both a
missing manager and an empty catalog, which Python treats alike by
truthiness. -/
def enhanceQuestion (all_tables : List TableRow) (question : String) : String :=
  if matchesTableListing question then
    if all_tables.isEmpty then genericEnhancement question
    else catalogEnhancement question all_tables
  else question

/-! ## SQLAgent.query_database: invocation and resolution (lines 839-898) -/

/-- The dict-shaped agent return value: an optional output field, an
optional result field, and the `str(response)` rendering used otherwise. -/
structure RespDict where
  output : Option String
  result : Option String
  rendered : String
deriving DecidableEq

/-- The agent invocation return value: a dict or something else, the
latter carried as its `str` rendering. -/
inductive AgentResponse where
  | dict (d : RespDict)
  | nonDict (rendered : String)
deriving DecidableEq

/-- Embeds the answer extraction of lines 849-858: prefer the output
field, then the result field, then the string rendering. -/
def extractAnswer : AgentResponse → String
  | .dict d =>
    match d.output with
    | some o => o
    | none =>
      match d.result with
      | some r => r
      | none => d.rendered
  | .nonDict s => s

/-- One row of the direct SalesLT introspection query (lines 868-876),
with the three selected columns Schema, Table_Name and Type. -/
structure SalesRow where
  schema_col : String
  table_name_col : String
  type_col : String
deriving DecidableEq

/-- The fixed SalesLT introspection query text (lines 868-876). -/
def salesLTQuery : String :=
  "\n                            SELECT \n                                TABLE_SCHEMA as [Schema],\n                                TABLE_NAME as [Table_Name], \n                                TABLE_TYPE as [Type]\n                            FROM INFORMATION_SCHEMA.TABLES \n                            WHERE TABLE_SCHEMA = \x27SalesLT\x27 AND TABLE_TYPE IN (\x27BASE TABLE\x27, \x27VIEW\x27)\n                            ORDER BY TABLE_NAME\n                            "

/-- One formatted line of the direct-fallback answer (lines 884-885). -/
def salesRowLine (r : SalesRow) : String :=
  (if r.type_col = "BASE TABLE" then "📊" else "👁️") ++ " " ++
  r.schema_col ++ "." ++ r.table_name_col ++ " (" ++ r.type_col ++ ")\n"

/-- The formatted direct-fallback answer text (lines 881-885). -/
def formatSalesRows (rows : List SalesRow) : String :=
  rows.foldl (fun acc r => acc ++ salesRowLine r) "Tables in SalesLT schema:\n\n"

/-- The triple returned by `query_database`: answer, SQL, result rows. -/
structure QueryResult where
  answer : String
  sql : Option String
  rows : Option (List SalesRow)
deriving DecidableEq

/-- Embeds `SQLAgent.query_database` (lines 770-898). `agentReady` models
the `if not self.agent` guard; `invoke` is the agent invocation keyed by
the question text it receives, with an exception as `.error`; `directExec`
is the outcome of executing the fixed SalesLT introspection query on the
stored engine. Every Python `return` becomes a `QueryResult`, so the
function is total: no path raises. -/
def query_database (agentReady : Bool) (all_tables : List TableRow)
    (invoke : String → Except String AgentResponse)
    (directExec : Except String (List SalesRow))
    (question : String) : QueryResult :=
  if !agentReady then ⟨"Agent not initialized", none, none⟩
  else
    let enhanced_question := enhanceQuestion all_tables question
    match invoke enhanced_question with
    | .ok response => ⟨extractAnswer response, none, none⟩
    | .error invoke_error =>
      if strHas (lowerStr question) "saleslt" &&
         strHas (lowerStr question) "table" then
        match directExec with
        | .ok rows =>
          if !rows.isEmpty then
            ⟨formatSalesRows rows, some salesLTQuery, some rows⟩
          else
            ⟨"No tables found in SalesLT schema", some salesLTQuery, some []⟩
        | .error fallback_error =>
          ⟨"Both invoke and fallback methods failed: " ++ invoke_error ++
             " | " ++ fallback_error, none, none⟩
      else
        ⟨"Query execution failed with invoke method: " ++ invoke_error,
         none, none⟩

/-! ## Sample data used by witness statements -/

/-- Sample catalog rows, with the SalesLT.Customer row duplicated the way
the unioned discovery query duplicates it (information-schema row with its
column count first, system-catalog row with column count 0 second). -/
def sampleRows : List TableRow :=
  [⟨"SalesLT", "Customer", "SalesLT.Customer", "BASE TABLE", 15⟩,
   ⟨"dbo", "BuildVersion", "dbo.BuildVersion", "BASE TABLE", 4⟩,
   ⟨"SalesLT", "Customer", "SalesLT.Customer", "BASE TABLE", 0⟩,
   ⟨"SalesLT", "vCustomer", "SalesLT.vCustomer", "VIEW", 9⟩]

/-- A sample INFORMATION_SCHEMA.COLUMNS catalog holding the columns of
SalesLT.Customer out of ordinal order, plus a column of another table. -/
def sampleColumns : List InfoColumn :=
  [⟨"SalesLT", "Customer", "LastName", "nvarchar", "NO", none, some 50, none, none, 2⟩,
   ⟨"SalesLT", "Customer", "CustomerID", "int", "NO", none, none, some 10, some 0, 1⟩,
   ⟨"dbo", "BuildVersion", "SystemInformationID", "tinyint", "NO", none, none, some 3, some 0, 1⟩,
   ⟨"SalesLT", "Customer", "Phone", "nvarchar", "YES", none, some 25, none, none, 3⟩]

/-- Sample rows of the direct SalesLT introspection query. -/
def sampleSales : List SalesRow :=
  [⟨"SalesLT", "Address", "BASE TABLE"⟩, ⟨"SalesLT", "Customer", "BASE TABLE"⟩]

/-- An agent response whose free text contains a SQL line but which the
resolver never scans for SQL. -/
def sampleResp : AgentResponse :=
  .dict ⟨some "The query used was:\nSELECT COUNT(*) FROM SalesLT.Customer\nThere are 847 customers.", none, ""⟩

/-! ## String containment lemmas -/

theorem dataPre_refl (s : String) : DataPre s s := ⟨[], by simp⟩

theorem dataPre_append (s r : String) : DataPre s (s ++ r) :=
  ⟨r.data, (String.data_append s r).symm⟩

theorem dataPre_trans {s t u : String} (h1 : DataPre s t) (h2 : DataPre t u) :
    DataPre s u := by
  obtain ⟨r1, hr1⟩ := h1
  obtain ⟨r2, hr2⟩ := h2
  exact ⟨r1 ++ r2, by rw [← List.append_assoc, hr1, hr2]⟩

theorem subStr_self (x : String) : SubStr x x := ⟨[], [], by simp⟩

theorem subStr_appendL (l : String) {x s : String} (h : SubStr x s) :
    SubStr x (l ++ s) := by
  obtain ⟨p, q, hp⟩ := h
  exact ⟨l.data ++ p, q, by simp [String.data_append, hp, List.append_assoc]⟩

theorem subStr_appendR {x s : String} (r : String) (h : SubStr x s) :
    SubStr x (s ++ r) := by
  obtain ⟨p, q, hp⟩ := h
  exact ⟨p, q ++ r.data, by simp [String.data_append, hp, List.append_assoc]⟩

theorem SubStr.mono {x s t : String} (h : SubStr x s) (hp : DataPre s t) :
    SubStr x t := by
  obtain ⟨l, r, hs⟩ := h
  obtain ⟨q, hq⟩ := hp
  exact ⟨l, r ++ q, by rw [← hq, hs]; simp [List.append_assoc]⟩

theorem subStr_trans {x y s : String} (h1 : SubStr x y) (h2 : SubStr y s) :
    SubStr x s := by
  obtain ⟨l1, r1, hy⟩ := h1
  obtain ⟨l2, r2, hs⟩ := h2
  exact ⟨l2 ++ l1, r1 ++ r2, by rw [hs, hy]; simp [List.append_assoc]⟩

theorem subStr_mid (a x b : String) : SubStr x (a ++ x ++ b) :=
  ⟨a.data, b.data, by simp [String.data_append]⟩

theorem subStr_of_leading (a : String) {x t : String}
    (h : DataPre (a ++ x) t) : SubStr x t := by
  obtain ⟨r, hr⟩ := h
  exact ⟨a.data, r, by rw [← hr]; simp [String.data_append, List.append_assoc]⟩

/-! ## Fold lemmas for the assembled context strings -/

theorem foldl_dataPre {β : Type} (step : String → β → String)
    (h : ∀ a x, DataPre a (step a x)) :
    ∀ (l : List β) (init : String), DataPre init (l.foldl step init)
  | [], init => dataPre_refl init
  | x :: xs, init => dataPre_trans (h init x) (foldl_dataPre step h xs (step init x))

theorem dataPre_schemaSection (acc : String) (g : String × List TableRow) :
    DataPre acc (schemaSection acc g) :=
  dataPre_trans
    (dataPre_trans
      (dataPre_trans (dataPre_append acc "\nSchema \x27")
        (dataPre_append _ g.1))
      (dataPre_append _ "\x27:\n"))
    (foldl_dataPre _ (fun a t => dataPre_append a (tableLine t)) g.2 _)

theorem subStr_inner_foldl (t : TableRow) :
    ∀ (l : List TableRow) (init : String), t ∈ l →
      SubStr (tableLine t) (l.foldl (fun a u => a ++ tableLine u) init)
  | x :: xs, init, h => by
    rcases List.mem_cons.mp h with rfl | hxs
    · exact (subStr_appendL init (subStr_self (tableLine t))).mono
        (foldl_dataPre _ (fun a u => dataPre_append a (tableLine u)) xs _)
    · exact subStr_inner_foldl t xs (init ++ tableLine x) hxs

theorem subStr_schemaName_schemaSection (acc : String)
    (g : String × List TableRow) : SubStr g.1 (schemaSection acc g) :=
  (subStr_mid (acc ++ "\nSchema \x27") g.1 "\x27:\n").mono
    (foldl_dataPre _ (fun a u => dataPre_append a (tableLine u)) g.2 _)

theorem subStr_outer_foldl (x : String) (g : String × List TableRow)
    (hg : ∀ acc, SubStr x (schemaSection acc g)) :
    ∀ (gs : List (String × List TableRow)) (init : String), g ∈ gs →
      SubStr x (gs.foldl schemaSection init)
  | g' :: gs, init, h => by
    rcases List.mem_cons.mp h with rfl | hgs
    · exact (hg init).mono (foldl_dataPre schemaSection dataPre_schemaSection gs _)
    · exact subStr_outer_foldl x g hg gs (schemaSection init g') hgs

/-! ## Grouping lemmas -/

theorem addToGroup_self : ∀ (gs : List (String × List TableRow)) (t : TableRow),
    ∃ g ∈ addToGroup gs t, g.1 = t.schema_name ∧ t ∈ g.2
  | [], t => ⟨(t.schema_name, [t]), by simp [addToGroup]⟩
  | (k, v) :: gs, t => by
    by_cases hk : k = t.schema_name
    · exact ⟨(k, v ++ [t]), by simp [addToGroup, hk], hk, by simp⟩
    · obtain ⟨g, hg, h1, h2⟩ := addToGroup_self gs t
      refine ⟨g, ?_, h1, h2⟩
      simp only [addToGroup, if_neg hk]
      exact List.mem_cons_of_mem _ hg

theorem addToGroup_mono {s : String} {u : TableRow} :
    ∀ (gs : List (String × List TableRow)) (t : TableRow),
      (∃ g ∈ gs, g.1 = s ∧ u ∈ g.2) →
      ∃ g ∈ addToGroup gs t, g.1 = s ∧ u ∈ g.2
  | [], _, h => by simp at h
  | (k, v) :: gs, t, h => by
    obtain ⟨g, hg, h1, h2⟩ := h
    by_cases hk : k = t.schema_name
    · rcases List.mem_cons.mp hg with rfl | hgs
      · exact ⟨(k, v ++ [t]), by simp [addToGroup, hk], h1,
          List.mem_append_left _ h2⟩
      · refine ⟨g, ?_, h1, h2⟩
        simp only [addToGroup, if_pos hk]
        exact List.mem_cons_of_mem _ hgs
    · rcases List.mem_cons.mp hg with rfl | hgs
      · exact ⟨(k, v), by simp [addToGroup, hk], h1, h2⟩
      · obtain ⟨g', hg', h1', h2'⟩ := addToGroup_mono gs t ⟨g, hgs, h1, h2⟩
        refine ⟨g', ?_, h1', h2'⟩
        simp only [addToGroup, if_neg hk]
        exact List.mem_cons_of_mem _ hg'

theorem mem_groupFold {t : TableRow} :
    ∀ (ts : List TableRow) (gs : List (String × List TableRow)),
      (t ∈ ts ∨ ∃ g ∈ gs, g.1 = t.schema_name ∧ t ∈ g.2) →
      ∃ g ∈ ts.foldl addToGroup gs, g.1 = t.schema_name ∧ t ∈ g.2
  | [], _, h => by
    rcases h with h | h
    · simp at h
    · simpa using h
  | x :: xs, gs, h => by
    rcases h with h | h
    · rcases List.mem_cons.mp h with rfl | hxs
      · exact mem_groupFold xs (addToGroup gs t) (Or.inr (addToGroup_self gs t))
      · exact mem_groupFold xs (addToGroup gs x) (Or.inl hxs)
    · exact mem_groupFold xs (addToGroup gs x) (Or.inr (addToGroup_mono gs x h))

theorem mem_groupBySchema {t : TableRow} {ts : List TableRow} (h : t ∈ ts) :
    ∃ g ∈ groupBySchema ts, g.1 = t.schema_name ∧ t ∈ g.2 :=
  mem_groupFold ts [] (Or.inl h)

theorem subStr_fullName_tableContext {t : TableRow} {ts : List TableRow}
    (h : t ∈ ts) : SubStr t.full_table_name (tableContext ts) := by
  obtain ⟨g, hg, _, htg⟩ := mem_groupBySchema h
  have h1 : SubStr t.full_table_name (tableLine t) :=
    subStr_of_leading "  - "
      (dataPre_trans
        (dataPre_trans (dataPre_append ("  - " ++ t.full_table_name) " (")
          (dataPre_append _ t.table_type))
        (dataPre_append _ ")\n"))
  have h2 : SubStr (tableLine t) (tableContext ts) :=
    subStr_outer_foldl (tableLine t) g
      (fun acc => subStr_inner_foldl t g.2 _ htg) (groupBySchema ts) _ hg
  exact subStr_trans h1 h2

theorem subStr_schemaName_tableContext {t : TableRow} {ts : List TableRow}
    (h : t ∈ ts) : SubStr t.schema_name (tableContext ts) := by
  obtain ⟨g, hg, hname, _⟩ := mem_groupBySchema h
  have h2 : SubStr g.1 (tableContext ts) :=
    subStr_outer_foldl g.1 g
      (fun acc => subStr_schemaName_schemaSection acc g) (groupBySchema ts) _ hg
  rwa [hname] at h2

/-! ## Deduplication lemmas -/

theorem dedupGo_find : ∀ (rows : List TableRow) (seen : List (String × String)),
    ∀ r ∈ dedupGo rows seen,
      tkey r ∉ seen ∧ rows.find? (fun x => decide (tkey x = tkey r)) = some r
  | [], _ => by simp [dedupGo]
  | x :: xs, seen => by
    intro r hr
    by_cases hx : tkey x ∈ seen
    · rw [dedupGo, if_pos hx] at hr
      obtain ⟨h1, h2⟩ := dedupGo_find xs seen r hr
      have hne : ¬ (tkey x = tkey r) := fun he => h1 (by rw [← he]; exact hx)
      exact ⟨h1, by rw [List.find?_cons_of_neg _ (by simpa using hne)]; exact h2⟩
    · rw [dedupGo, if_neg hx] at hr
      rcases List.mem_cons.mp hr with rfl | hr'
      · exact ⟨hx, List.find?_cons_of_pos _ (by simp)⟩
      · obtain ⟨h1, h2⟩ := dedupGo_find xs (tkey x :: seen) r hr'
        have hne : ¬ (tkey x = tkey r) :=
          fun he => h1 (by rw [← he]; exact List.mem_cons_self _ _)
        refine ⟨fun hs => h1 (List.mem_cons_of_mem _ hs), ?_⟩
        rw [List.find?_cons_of_neg _ (by simpa using hne)]
        exact h2

theorem dedupGo_nodup : ∀ (rows : List TableRow) (seen : List (String × String)),
    ((dedupGo rows seen).map tkey).Nodup
  | [], _ => by simp [dedupGo]
  | x :: xs, seen => by
    by_cases hx : tkey x ∈ seen
    · rw [dedupGo, if_pos hx]; exact dedupGo_nodup xs seen
    · rw [dedupGo, if_neg hx]
      simp only [List.map_cons]
      refine List.nodup_cons.mpr ⟨?_, dedupGo_nodup xs (tkey x :: seen)⟩
      intro hmem
      obtain ⟨r, hr, hkey⟩ := List.mem_map.mp hmem
      exact (dedupGo_find xs (tkey x :: seen) r hr).1
        (by rw [hkey]; exact List.mem_cons_self _ _)

theorem dedupGo_cover : ∀ (rows : List TableRow) (seen : List (String × String)),
    ∀ x ∈ rows, tkey x ∈ seen ∨ ∃ r ∈ dedupGo rows seen, tkey r = tkey x
  | [], _ => by simp
  | y :: ys, seen => by
    intro x hx
    by_cases hy : tkey y ∈ seen
    · rw [dedupGo, if_pos hy]
      rcases List.mem_cons.mp hx with rfl | hx'
      · exact Or.inl hy
      · exact dedupGo_cover ys seen x hx'
    · rw [dedupGo, if_neg hy]
      rcases List.mem_cons.mp hx with rfl | hx'
      · exact Or.inr ⟨x, List.mem_cons_self _ _, rfl⟩
      · rcases dedupGo_cover ys (tkey y :: seen) x hx' with h | ⟨r, hr, hk⟩
        · rcases List.mem_cons.mp h with heq | hseen
          · exact Or.inr ⟨y, List.mem_cons_self _ _, heq.symm⟩
          · exact Or.inl hseen
        · exact Or.inr ⟨r, List.mem_cons_of_mem _ hr, hk⟩

/-! ## First-match characterization of find? -/

theorem find?_first {α : Type} (p : α → Bool) :
    ∀ (l : List α) (a : α), l.find? p = some a →
      ∃ l1 l2, l = l1 ++ a :: l2 ∧ (∀ q ∈ l1, p q = false) ∧ p a = true
  | [], a, h => by simp at h
  | x :: xs, a, h => by
    by_cases hx : p x = true
    · rw [List.find?_cons_of_pos _ hx] at h
      obtain rfl : x = a := by injection h
      exact ⟨[], xs, rfl, by simp, hx⟩
    · rw [List.find?_cons_of_neg _ hx] at h
      obtain ⟨l1, l2, he, hall, hp⟩ := find?_first p xs a h
      refine ⟨x :: l1, l2, by rw [he, List.cons_append], ?_, hp⟩
      intro q hq
      rcases List.mem_cons.mp hq with rfl | h'
      · simpa using hx
      · exact hall q h'

/-! ## Column ordering lemmas -/

theorem columnsQuery_sorted (catalog : List InfoColumn) (s t : String) :
    List.Sorted colOrd (columnsQuery catalog s t) :=
  List.sorted_insertionSort colOrd _

theorem columnsQuery_perm (catalog : List InfoColumn) (s t : String) :
    (columnsQuery catalog s t).Perm
      (catalog.filter fun c => c.table_schema == s && c.table_name == t) :=
  List.perm_insertionSort colOrd _

theorem columnsQuery_ordinals (catalog : List InfoColumn) (s t : String)
    (n : Nat)
    (hperm : ((catalog.filter fun c =>
        c.table_schema == s && c.table_name == t).map
          InfoColumn.ordinal_position).Perm (List.range' 1 n)) :
    (columnsQuery catalog s t).map InfoColumn.ordinal_position =
      List.range' 1 n := by
  have hsorted : List.Sorted (· ≤ ·)
      ((columnsQuery catalog s t).map InfoColumn.ordinal_position) :=
    List.Pairwise.map _ (fun _ _ h => h) (columnsQuery_sorted catalog s t)
  have hperm2 : ((columnsQuery catalog s t).map
      InfoColumn.ordinal_position).Perm (List.range' 1 n) :=
    ((columnsQuery_perm catalog s t).map _).trans hperm
  have hrange : List.Sorted (· ≤ ·) (List.range' 1 n) :=
    (List.pairwise_lt_range' 1 n).imp (fun h => le_of_lt h)
  exact List.eq_of_perm_of_sorted hperm2 hsorted hrange

/-! ## Reasoning-loop bound -/

theorem reactGo_thinks (engine : List String → StepOutcome)
    (tools : String → String → String) (hp : Bool) :
    ∀ (fuel : Nat) (transcript : List String) (thinks : Nat),
      (reactGo engine tools hp fuel transcript thinks).2 ≤ thinks + fuel
  | 0, _, thinks => Nat.le_refl _
  | fuel + 1, transcript, thinks => by
    rw [reactGo]
    match engine transcript with
    | .finalAnswer a =>
      show thinks + 1 ≤ thinks + (fuel + 1)
      omega
    | .action tool inp =>
      show (reactGo engine tools hp fuel
          (transcript ++ [tools tool inp]) (thinks + 1)).2 ≤ thinks + (fuel + 1)
      have := reactGo_thinks engine tools hp fuel
        (transcript ++ [tools tool inp]) (thinks + 1)
      omega
    | .parseFailure raw =>
      show (if hp = true then
          reactGo engine tools hp fuel
            (transcript ++ ["Invalid or incomplete response. Please follow the expected action format."])
            (thinks + 1)
        else ("Could not parse LLM output: " ++ raw, thinks + 1)).2 ≤
          thinks + (fuel + 1)
      by_cases h : hp = true
      · rw [if_pos h]
        have := reactGo_thinks engine tools hp fuel
          (transcript ++ ["Invalid or incomplete response. Please follow the expected action format."])
          (thinks + 1)
        omega
      · rw [if_neg h]
        show thinks + 1 ≤ thinks + (fuel + 1)
        omega

/-! ## Percent-encoded parts of the connection string -/

theorem subStr_qp_parts (qp : String → String)
    (server database username password driver : String)
    (tc : Bool) (tmo : Nat) :
    SubStr (qp username)
      (connection_string_of qp server database username password driver tc tmo) ∧
    SubStr (qp password)
      (connection_string_of qp server database username password driver tc tmo) ∧
    SubStr (qp driver)
      (connection_string_of qp server database username password driver tc tmo) := by
  refine ⟨?_, ?_, ?_⟩ <;>
    · unfold connection_string_of
      repeat (first
        | exact subStr_appendL _ (subStr_self _)
        | apply subStr_appendR)

/-! ## Claim theorems -/

/-- C9: `test_connection` never raises: a failed connection attempt is
returned as `(false, message)` where the message is the error text with
troubleshooting guidance appended, selected by case-insensitive substring
match on the error text — timeout guidance when it contains "timeout",
else login guidance when it contains "login", else SSL guidance when it
contains "ssl" or "certificate", else no guidance — and a successful
attempt yields `(true, "Connection successful!")`. -/
theorem c9_test_connection_guidance (e : String) :
    (test_connection (.ok ()) = (true, "Connection successful!")) ∧
    (strHas (lowerStr e) "timeout" = true →
      test_connection (.error e) =
        (false, "Connection failed: " ++ e ++ timeout_troubleshooting)) ∧
    (strHas (lowerStr e) "timeout" = false →
     strHas (lowerStr e) "login" = true →
      test_connection (.error e) =
        (false, "Connection failed: " ++ e ++ login_troubleshooting)) ∧
    (strHas (lowerStr e) "timeout" = false →
     strHas (lowerStr e) "login" = false →
     (strHas (lowerStr e) "ssl" || strHas (lowerStr e) "certificate") = true →
      test_connection (.error e) =
        (false, "Connection failed: " ++ e ++ ssl_troubleshooting)) ∧
    (strHas (lowerStr e) "timeout" = false →
     strHas (lowerStr e) "login" = false →
     strHas (lowerStr e) "ssl" = false →
     strHas (lowerStr e) "certificate" = false →
      test_connection (.error e) =
        (false, "Connection failed: " ++ e ++ "")) := by
  refine ⟨rfl, ?_, ?_, ?_, ?_⟩ <;> intros <;> simp_all [test_connection]

/-- Witness for C9: concrete failing connection attempts receive the
guidance block selected by their error text. -/
theorem c9_witness :
    test_connection (.error "Login timeout expired") =
      (false, "Connection failed: " ++ "Login timeout expired" ++
        timeout_troubleshooting) ∧
    test_connection (.error "SSL handshake failed") =
      (false, "Connection failed: " ++ "SSL handshake failed" ++
        ssl_troubleshooting) :=
  ⟨(c9_test_connection_guidance "Login timeout expired").2.1 (by decide),
   (c9_test_connection_guidance "SSL handshake failed").2.2.2.1
     (by decide) (by decide) (by decide)⟩

/-- C10: with no driver supplied, `create_connection_string` raises when
the available-driver list is empty and otherwise picks the first entry of
the fixed preference list present in the available list, falling back to
the first available driver; the produced URI applies the percent-encoder
to the username, the password and the driver name; and
`get_available_drivers` yields exactly the pyodbc drivers whose name
contains "SQL Server" (none on a pyodbc failure). -/
theorem c10_driver_selection (qp : String → String)
    (server database username password : String)
    (trust_cert : Bool) (tmo : Nat) :
    (∀ err, get_available_drivers (.error err) = []) ∧
    (∀ ds d, d ∈ get_available_drivers (.ok ds) →
       strHas d "SQL Server" = true ∧ d ∈ ds) ∧
    (create_connection_string qp server database username password none []
       trust_cert tmo = .error "No SQL Server ODBC drivers found.") ∧
    (∀ a rest, ∃ d,
       create_connection_string qp server database username password none
           (a :: rest) trust_cert tmo =
         .ok (connection_string_of qp server database username password d
                trust_cert tmo, d) ∧
       SubStr (qp username)
         (connection_string_of qp server database username password d
            trust_cert tmo) ∧
       SubStr (qp password)
         (connection_string_of qp server database username password d
            trust_cert tmo) ∧
       SubStr (qp d)
         (connection_string_of qp server database username password d
            trust_cert tmo) ∧
       ((∃ l1 l2, preferred_drivers = l1 ++ d :: l2 ∧
           (a :: rest).contains d = true ∧
           ∀ q ∈ l1, (a :: rest).contains q = false) ∨
        ((∀ q ∈ preferred_drivers, (a :: rest).contains q = false) ∧
         d = a))) := by
  refine ⟨fun _ => rfl, ?_, rfl, ?_⟩
  · intro ds d hd
    rw [get_available_drivers] at hd
    have h := List.mem_filter.mp hd
    exact ⟨h.2, h.1⟩
  · intro a rest
    rcases hfind : preferred_drivers.find? (fun p => (a :: rest).contains p)
      with _ | p
    · obtain ⟨h1, h2, h3⟩ :=
        subStr_qp_parts qp server database username password a trust_cert tmo
      refine ⟨a, ?_, h1, h2, h3, Or.inr ⟨?_, rfl⟩⟩
      · simp only [create_connection_string]
        rw [hfind]
        rfl
      · intro q hq
        simpa using List.find?_eq_none.mp hfind q hq
    · obtain ⟨l1, l2, he, hall, hp⟩ := find?_first _ preferred_drivers p hfind
      obtain ⟨h1, h2, h3⟩ :=
        subStr_qp_parts qp server database username password p trust_cert tmo
      refine ⟨p, ?_, h1, h2, h3, Or.inl ⟨l1, l2, he, hp, hall⟩⟩
      simp only [create_connection_string]
      rw [hfind]
      rfl

/-- Witness for C10: a concrete pyodbc driver list is filtered to the SQL
Server entries. -/
theorem c10_witness :
    strHas "ODBC Driver 17 for SQL Server" "SQL Server" = true ∧
    "ODBC Driver 17 for SQL Server" ∈
      ["PostgreSQL Unicode", "ODBC Driver 17 for SQL Server"] :=
  (c10_driver_selection id "srv" "db" "user" "pw" false 60).2.1
    ["PostgreSQL Unicode", "ODBC Driver 17 for SQL Server"]
    "ODBC Driver 17 for SQL Server" (by decide)

/-- C2: on the primary discovery path the returned catalog is the
deduplication of the fetched rows: the (schema, table) key pairs of the
result are pairwise distinct, each returned row is exactly the first
fetched row bearing its key (so its column_count is the first-seen one),
and every fetched key is represented. -/
theorem c2_catalog_dedup (rows : List TableRow)
    (fallbackQuery : Except String (List (String × String))) :
    (get_all_tables_and_schemas true (.ok rows) fallbackQuery =
       dedupGo rows []) ∧
    ((dedupGo rows []).map tkey).Nodup ∧
    (∀ r ∈ dedupGo rows [],
       rows.find? (fun x => decide (tkey x = tkey r)) = some r) ∧
    (∀ x ∈ rows, ∃ r ∈ dedupGo rows [], tkey r = tkey x) := by
  refine ⟨rfl, dedupGo_nodup rows [], ?_, ?_⟩
  · intro r hr
    exact (dedupGo_find rows [] r hr).2
  · intro x hx
    rcases dedupGo_cover rows [] x hx with h | h
    · simp at h
    · exact h

/-- Witness for C2: in the sample catalog the duplicated SalesLT.Customer
key survives once, as the first-seen row with its column count 15, and
the deduplicated key list has no duplicates. -/
theorem c2_witness :
    sampleRows.find? (fun x => decide (tkey x =
        tkey ⟨"SalesLT", "Customer", "SalesLT.Customer", "BASE TABLE", 15⟩)) =
      some ⟨"SalesLT", "Customer", "SalesLT.Customer", "BASE TABLE", 15⟩ ∧
    ((dedupGo sampleRows []).map tkey).Nodup :=
  ⟨(c2_catalog_dedup sampleRows (.ok [])).2.2.1
     ⟨"SalesLT", "Customer", "SalesLT.Customer", "BASE TABLE", 15⟩ (by decide),
   (c2_catalog_dedup sampleRows (.ok [])).2.1⟩

/-- C3: when the primary discovery query raises, the fallback basic query
is used and every returned row is a BASE TABLE entry with column_count 0;
when the fallback also raises the function returns the empty list, so no
exception reaches the caller. -/
theorem c3_discovery_fallback (e : String)
    (fallbackQuery : Except String (List (String × String))) :
    (∀ pairs, fallbackQuery = .ok pairs →
       get_all_tables_and_schemas true (.error e) fallbackQuery =
         pairs.map basicQueryRow ∧
       ∀ r ∈ get_all_tables_and_schemas true (.error e) fallbackQuery,
         r.table_type = "BASE TABLE" ∧ r.column_count = 0) ∧
    (∀ e2, fallbackQuery = .error e2 →
       get_all_tables_and_schemas true (.error e) fallbackQuery = []) := by
  constructor
  · intro pairs h
    subst h
    refine ⟨rfl, ?_⟩
    intro r hr
    simp only [get_all_tables_and_schemas, Bool.not_true, Bool.false_eq_true,
      if_false, List.mem_map] at hr
    obtain ⟨p, _, rfl⟩ := hr
    exact ⟨rfl, rfl⟩
  · intro e2 h
    subst h
    rfl

/-- Witness for C3: a simulated permission failure on the primary query
with one fallback row, and a total failure of both queries. -/
theorem c3_witness :
    get_all_tables_and_schemas true (.error "permission denied")
        (.ok [("SalesLT", "Customer")]) =
      [("SalesLT", "Customer")].map basicQueryRow ∧
    get_all_tables_and_schemas true (.error "permission denied")
        (.error "query failed") = [] :=
  ⟨((c3_discovery_fallback "permission denied"
       (.ok [("SalesLT", "Customer")])).1 [("SalesLT", "Customer")] rfl).1,
   (c3_discovery_fallback "permission denied"
       (.error "query failed")).2 "query failed" rfl⟩

/-- C4: `get_table_columns` never raises — it returns the empty list when
the engine is absent or the query errors — and on success the returned
columns are ordered by ordinal position: when the catalog assigns the
requested table the ordinal positions 1..n, the returned ordinal sequence
is exactly 1,...,n, strictly increasing. -/
theorem c4_columns_ordered (catalog : List InfoColumn)
    (s t : String) (n : Nat)
    (hperm : ((catalog.filter fun c =>
        c.table_schema == s && c.table_name == t).map
          InfoColumn.ordinal_position).Perm (List.range' 1 n)) :
    (∀ q, get_table_columns false q = []) ∧
    (∀ b msg, get_table_columns b (.error msg) = []) ∧
    ((get_table_columns true (.ok (columnsQuery catalog s t))).map
        InfoColumn.ordinal_position = List.range' 1 n) ∧
    List.Chain' (· < ·)
      ((get_table_columns true (.ok (columnsQuery catalog s t))).map
        InfoColumn.ordinal_position) := by
  have hord := columnsQuery_ordinals catalog s t n hperm
  refine ⟨fun _ => rfl, ?_, hord, ?_⟩
  · intro b msg
    cases b <;> rfl
  · show List.Chain' (· < ·)
      ((columnsQuery catalog s t).map InfoColumn.ordinal_position)
    rw [show (columnsQuery catalog s t).map InfoColumn.ordinal_position =
          List.range' 1 n from hord]
    exact (List.pairwise_lt_range' 1 n).chain'

/-- Witness for C4: the sample SalesLT.Customer columns come back in
ordinal order 1, 2, 3, and a missing engine yields the empty list. -/
theorem c4_witness :
    ((get_table_columns true
        (.ok (columnsQuery sampleColumns "SalesLT" "Customer"))).map
          InfoColumn.ordinal_position = List.range' 1 3) ∧
    get_table_columns false (.ok (columnsQuery sampleColumns "SalesLT" "Customer")) = [] :=
  ⟨(c4_columns_ordered sampleColumns "SalesLT" "Customer" 3 (by decide)).2.2.1,
   (c4_columns_ordered sampleColumns "SalesLT" "Customer" 3 (by decide)).1 _⟩

/-- C1: `query_database` is total and its answer component is populated on
every path: the not-initialized guard, the successful invocation (where
the answer is the extracted engine output), the direct SalesLT fallback,
or an error-describing string naming the failure(s). -/
theorem c1_query_database_total (agentReady : Bool)
    (all_tables : List TableRow)
    (invoke : String → Except String AgentResponse)
    (directExec : Except String (List SalesRow)) (question : String) :
    (agentReady = false ∧
       query_database agentReady all_tables invoke directExec question =
         ⟨"Agent not initialized", none, none⟩) ∨
    (∃ resp, invoke (enhanceQuestion all_tables question) = .ok resp ∧
       query_database agentReady all_tables invoke directExec question =
         ⟨extractAnswer resp, none, none⟩) ∨
    (∃ e, invoke (enhanceQuestion all_tables question) = .error e ∧
       ((∃ rows, directExec = .ok rows ∧
           ((query_database agentReady all_tables invoke directExec
               question).answer = formatSalesRows rows ∨
            (query_database agentReady all_tables invoke directExec
               question).answer = "No tables found in SalesLT schema")) ∨
        (∃ e2, directExec = .error e2 ∧
           (query_database agentReady all_tables invoke directExec
              question).answer =
             "Both invoke and fallback methods failed: " ++ e ++ " | " ++ e2) ∨
        (query_database agentReady all_tables invoke directExec
           question).answer =
          "Query execution failed with invoke method: " ++ e)) := by
  cases agentReady with
  | false => exact Or.inl ⟨rfl, rfl⟩
  | true =>
    rcases hinv : invoke (enhanceQuestion all_tables question) with e | resp
    · refine Or.inr (Or.inr ⟨e, rfl, ?_⟩)
      by_cases hq : (strHas (lowerStr question) "saleslt" &&
        strHas (lowerStr question) "table") = true
      · rcases hd : directExec with e2 | rows
        · exact Or.inr (Or.inl ⟨e2, rfl, by simp [query_database, hinv, hq, hd]⟩)
        · refine Or.inl ⟨rows, rfl, ?_⟩
          by_cases hr : rows.isEmpty
          · exact Or.inr (by simp [query_database, hinv, hq, hd, hr])
          · exact Or.inl (by simp [query_database, hinv, hq, hd, hr])
      · exact Or.inr (Or.inr (by simp [query_database, hinv, hq]))
    · exact Or.inr (Or.inl ⟨resp, rfl, by simp [query_database, hinv]⟩)

/-- C5: when the lower-cased question contains a table/schema keyword and
an all/list/show/what keyword, the engine receives an augmented question
that still contains the original question and enumerates the catalog —
every schema name and every fully qualified table name of all_tables
occurs in it; for every other question the question is passed through
unmodified. -/
theorem c5_question_augmentation (all_tables : List TableRow)
    (question : String) :
    (matchesTableListing question = false →
       enhanceQuestion all_tables question = question) ∧
    (matchesTableListing question = true →
       SubStr question (enhanceQuestion all_tables question) ∧
       ∀ t ∈ all_tables,
         SubStr t.full_table_name (enhanceQuestion all_tables question) ∧
         SubStr t.schema_name (enhanceQuestion all_tables question)) := by
  constructor
  · intro h
    simp [enhanceQuestion, h]
  · intro h
    rw [enhanceQuestion, if_pos h]
    by_cases hemp : all_tables.isEmpty
    · rw [if_pos hemp]
      refine ⟨?_, ?_⟩
      · unfold genericEnhancement
        repeat (first
          | exact subStr_appendL _ (subStr_self _)
          | apply subStr_appendR)
      · intro t ht
        cases all_tables with
        | nil => simp at ht
        | cons x xs => simp [List.isEmpty] at hemp
    · rw [if_neg hemp]
      have hctx : SubStr (tableContext all_tables)
          (catalogEnhancement question all_tables) := by
        unfold catalogEnhancement
        repeat (first
          | exact subStr_appendL _ (subStr_self _)
          | apply subStr_appendR)
      refine ⟨?_, ?_⟩
      · unfold catalogEnhancement
        repeat (first
          | exact subStr_appendL _ (subStr_self _)
          | apply subStr_appendR)
      · intro t ht
        exact ⟨subStr_trans (subStr_fullName_tableContext ht) hctx,
               subStr_trans (subStr_schemaName_tableContext ht) hctx⟩

/-- Witness for C5: a concrete table-listing question is augmented and
the augmented text contains both the question and a fully qualified
sample table name. -/
theorem c5_witness :
    SubStr "Show me all tables in all schemas"
      (enhanceQuestion sampleRows "Show me all tables in all schemas") ∧
    SubStr "SalesLT.Customer"
      (enhanceQuestion sampleRows "Show me all tables in all schemas") := by
  have h := (c5_question_augmentation sampleRows
    "Show me all tables in all schemas").2 (by decide)
  exact ⟨h.1,
    (h.2 ⟨"SalesLT", "Customer", "SalesLT.Customer", "BASE TABLE", 15⟩
      (by decide)).1⟩

/-- C6: the agent is configured with an iteration cap of 10, force early
stopping and parse-error handling, and the (spec-modelled) reasoning loop
always returns within max_iterations + 1 THINK steps, while an individual
parse failure appends a corrective observation and continues the loop
instead of terminating it. -/
theorem c6_reasoning_loop_bounded :
    createAgentConfig.max_iterations = 10 ∧
    createAgentConfig.early_stopping_method = "force" ∧
    createAgentConfig.handle_parsing_errors = true ∧
    (∀ engine tools,
       (reasoningLoop engine tools createAgentConfig).2 ≤
         createAgentConfig.max_iterations + 1) ∧
    (∀ engine tools fuel transcript thinks raw,
       engine transcript = .parseFailure raw →
       reactGo engine tools true (fuel + 1) transcript thinks =
         reactGo engine tools true fuel
           (transcript ++ ["Invalid or incomplete response. Please follow the expected action format."])
           (thinks + 1)) := by
  refine ⟨rfl, rfl, rfl, ?_, ?_⟩
  · intro engine tools
    show (reactGo engine tools true 10 [] 0).2 ≤ 10 + 1
    exact Nat.le_trans (reactGo_thinks engine tools true 10 [] 0) (by omega)
  · intro engine tools fuel transcript thinks raw h
    rw [reactGo, h]
    rfl

/-- Witness for C6: an engine that always produces malformed output takes
one corrective step without terminating the loop. -/
theorem c6_witness :
    reactGo engineAlwaysMalformed toolsConst true 3 [] 0 =
      reactGo engineAlwaysMalformed toolsConst true 2
        ["Invalid or incomplete response. Please follow the expected action format."] 1 :=
  c6_reasoning_loop_bounded.2.2.2.2 engineAlwaysMalformed toolsConst 2 [] 0
    "I cannot follow the action format." rfl

/-- C7 counterexample: a successful invocation whose answer text contains
the line SELECT COUNT(*) FROM SalesLT.Customer still comes back with
sql = none — the resolver performs no lexical SQL extraction, contrary to
the claim. -/
theorem c7_counterexample :
    (query_database true [] (fun _ => .ok sampleResp) (.error "no engine")
        "How many customers are there?").sql = none ∧
    SubStr "SELECT COUNT(*) FROM SalesLT.Customer"
      (query_database true [] (fun _ => .ok sampleResp) (.error "no engine")
        "How many customers are there?").answer := by
  refine ⟨rfl, ?_⟩
  exact ⟨("The query used was:\n").data, ("\nThere are 847 customers.").data,
    by decide⟩

/-- C7 amended: on the primary path the resolver performs no SQL
extraction at all — whenever the agent invocation succeeds,
query_database returns the extracted answer with sql = none and
rows = none, even when the answer text contains a SQL statement; a
non-none sql arises only from the direct-execution fallback. -/
theorem c7_primary_path_no_sql (all_tables : List TableRow)
    (invoke : String → Except String AgentResponse)
    (directExec : Except String (List SalesRow)) (question : String)
    (resp : AgentResponse)
    (h : invoke (enhanceQuestion all_tables question) = .ok resp) :
    query_database true all_tables invoke directExec question =
      ⟨extractAnswer resp, none, none⟩ := by
  simp [query_database, h]

/-- Witness for C7: a concrete successful invocation resolves to the
extracted answer with no SQL and no rows. -/
theorem c7_witness :
    query_database true [] (fun _ => .ok (.nonDict "hello")) (.error "x")
        "hi" = ⟨extractAnswer (.nonDict "hello"), none, none⟩ :=
  c7_primary_path_no_sql [] (fun _ => .ok (.nonDict "hello")) (.error "x")
    "hi" (.nonDict "hello") rfl

/-- C8: when the invocation raises: a question whose lower-cased text
contains both saleslt and table triggers direct execution of the fixed
SalesLT INFORMATION_SCHEMA query, returning the formatted text, the SQL
used and the rows (or a no-tables message with empty rows); any other
question surfaces the invoke failure as an answer string, and when the
direct execution also fails both errors are reported. -/
theorem c8_direct_fallback (all_tables : List TableRow)
    (invoke : String → Except String AgentResponse)
    (directExec : Except String (List SalesRow)) (question : String)
    (e : String)
    (hinv : invoke (enhanceQuestion all_tables question) = .error e) :
    ((strHas (lowerStr question) "saleslt" &&
      strHas (lowerStr question) "table") = true →
       (∀ rows, directExec = .ok rows → rows ≠ [] →
          query_database true all_tables invoke directExec question =
            ⟨formatSalesRows rows, some salesLTQuery, some rows⟩) ∧
       (directExec = .ok [] →
          query_database true all_tables invoke directExec question =
            ⟨"No tables found in SalesLT schema", some salesLTQuery,
             some []⟩) ∧
       (∀ e2, directExec = .error e2 →
          query_database true all_tables invoke directExec question =
            ⟨"Both invoke and fallback methods failed: " ++ e ++ " | " ++ e2,
             none, none⟩)) ∧
    ((strHas (lowerStr question) "saleslt" &&
      strHas (lowerStr question) "table") = false →
       query_database true all_tables invoke directExec question =
         ⟨"Query execution failed with invoke method: " ++ e, none, none⟩) := by
  constructor
  · intro hq
    refine ⟨?_, ?_, ?_⟩
    · intro rows hd hne
      have hr : rows.isEmpty = false := by
        cases rows with
        | nil => exact absurd rfl hne
        | cons x xs => rfl
      simp [query_database, hinv, hq, hd, hr]
    · intro hd
      simp [query_database, hinv, hq, hd]
    · intro e2 hd
      simp [query_database, hinv, hq, hd]
  · intro hq
    simp [query_database, hinv, hq]

/-- Witness for C8: a failing invocation on a SalesLT table-listing
question is answered by the direct introspection query. -/
theorem c8_witness :
    query_database true [] (fun _ => .error "boom") (.ok sampleSales)
        "List the tables in SalesLT" =
      ⟨formatSalesRows sampleSales, some salesLTQuery, some sampleSales⟩ :=
  ((c8_direct_fallback [] (fun _ => .error "boom") (.ok sampleSales)
      "List the tables in SalesLT" "boom" rfl).1 (by decide)).1
    sampleSales rfl (by decide)

end DBChat
